import Mathlib

/-
Verification of the dashboard Zustand store
(src/react/src/features/dashboard/stores/dashboardStore.ts).

The store's state and its mutation operations are embedded shallowly:
each action of the store becomes a pure function `DashboardState → DashboardState`.
JavaScript numbers are modelled as exact rationals; the one place where the
store's arithmetic can leave the finite range (the division inside
`updateQuestProgress`) is modelled by `JSNum`, which carries the IEEE special
values NaN and ±Infinity explicitly.  Display-only fields of the data model
(icons, colors, gradients, timestamps, free-text descriptions) are omitted:
no store operation reads or writes them, they are only spread through
unchanged.
-/

/-- A JavaScript number as produced by the store's percentage computation:
either a finite value (modelled exactly as a rational) or one of the IEEE
special values NaN, +Infinity, -Infinity. -/
inductive JSNum where
  | nan
  | posInf
  | negInf
  | num (val : ℚ)
deriving DecidableEq

/-- JavaScript division of two finite numbers: finite quotient when the
divisor is nonzero, otherwise +Infinity, -Infinity or NaN according to the
sign of the dividend. -/
def jsDiv (a b : ℚ) : JSNum :=
  if b ≠ 0 then JSNum.num (a / b)
  else if 0 < a then JSNum.posInf
  else if a < 0 then JSNum.negInf
  else JSNum.nan

/-- JavaScript multiplication of a number by a positive finite constant
(the literal 100 in the source): special values are preserved. -/
def jsMulPos (x : JSNum) (c : ℚ) : JSNum :=
  match x with
  | JSNum.nan => JSNum.nan
  | JSNum.posInf => JSNum.posInf
  | JSNum.negInf => JSNum.negInf
  | JSNum.num q => JSNum.num (q * c)

/-- JavaScript Math.min on two numbers: NaN if either argument is NaN,
otherwise the smaller with -Infinity below and +Infinity above every
finite value. -/
def jsMin (x y : JSNum) : JSNum :=
  match x, y with
  | JSNum.nan, _ => JSNum.nan
  | _, JSNum.nan => JSNum.nan
  | JSNum.negInf, _ => JSNum.negInf
  | _, JSNum.negInf => JSNum.negInf
  | JSNum.posInf, b => b
  | a, JSNum.posInf => a
  | JSNum.num a, JSNum.num b => JSNum.num (min a b)

/-- Quest type enumeration (shared types, BottomNavigation.tsx). -/
inductive QuestType where
  | main
  | side
  | daily
  | weekly
  | event
  | achievement
deriving DecidableEq

/-- Quest status enumeration (shared types, BottomNavigation.tsx). -/
inductive QuestStatus where
  | locked
  | available
  | inProgress
  | completed
  | claimed
  | expired
deriving DecidableEq

/-- QuestProgress record: current, target and the stored percentage.
The percentage is a `JSNum` because `updateQuestProgress` computes it by a
division that can produce special values. -/
structure QuestProgress where
  current : ℚ
  target : ℚ
  percentage : JSNum
deriving DecidableEq

/-- QuestRewards record (gems and item lists omitted: never read by the store). -/
structure QuestRewards where
  xp : ℚ
  coins : ℚ
deriving DecidableEq

/-- DashboardQuest: the fields of the quest record that the store reads or
writes, plus representative carried-along fields.  Icons, colors, deadline
strings and similar display-only fields are omitted. -/
structure DashboardQuest where
  id : String
  title : String
  type : QuestType
  status : QuestStatus
  progress : QuestProgress
  rewards : QuestRewards
  isExpiringSoon : Bool
deriving DecidableEq

/-- DashboardActivity: an immutable feed record; the store treats it
opaquely (display fields omitted). -/
structure DashboardActivity where
  id : String
  title : String
deriving DecidableEq

/-- UserStats: the numeric stats block of the user (rank object omitted). -/
structure UserStats where
  level : ℕ
  currentXP : ℚ
  requiredXP : ℚ
  totalXP : ℚ
  coins : ℚ
  gems : ℚ
deriving DecidableEq

/-- DashboardUser: identity plus stats (avatar, clan and name parts omitted). -/
structure DashboardUser where
  id : String
  displayName : String
  stats : UserStats
deriving DecidableEq

/-- UpcomingClass: opaque to the store (schedule display fields omitted). -/
structure UpcomingClass where
  id : String
  courseName : String
deriving DecidableEq

/-- LeaderboardEntry: opaque to the store. -/
structure LeaderboardEntry where
  rank : ℕ
  userId : String
  level : ℕ
  xp : ℚ
  isCurrentUser : Bool
deriving DecidableEq

/-- FeaturedBadge: opaque to the store. -/
structure FeaturedBadge where
  id : String
deriving DecidableEq

/-- WeeklyStats record (comparedToLastWeek sub-object omitted). -/
structure WeeklyStats where
  xpEarned : ℚ
  questsCompleted : ℚ
  attendanceRate : ℚ
  streakDays : ℚ
deriving DecidableEq

/-- Time range filter values of DashboardFilters. -/
inductive TimeRange where
  | today
  | week
  | month
deriving DecidableEq

/-- DashboardFilters: both keys are optional; `none` models an absent key.
A value of this type also serves as the `setFilters` argument, whose type in
the source is the same record with every key optional. -/
structure DashboardFilters where
  questType : Option QuestType
  timeRange : Option TimeRange
deriving DecidableEq

/-- The empty filter object, modelling a call `setFilters(\x7b\x7d)`. -/
def emptyFilters : DashboardFilters :=
  { questType := none, timeRange := none }

/-- The full store state: snapshot data, lifecycle flags, preferences and
the pending-reward accumulators (dashboardStore.ts, DashboardState). -/
structure DashboardState where
  user : Option DashboardUser
  activeQuests : List DashboardQuest
  activities : List DashboardActivity
  upcomingClasses : List UpcomingClass
  leaderboard : List LeaderboardEntry
  featuredBadges : List FeaturedBadge
  weeklyStats : Option WeeklyStats
  isLoading : Bool
  isRefreshing : Bool
  error : Option String
  filters : DashboardFilters
  showCompletedQuests : Bool
  activityLimit : ℕ
  pendingXPGain : ℚ
  pendingCoinsGain : ℚ
deriving DecidableEq

/-- The store's initial state (dashboardStore.ts, `initialState`). -/
def initialState : DashboardState :=
  { user := none
    activeQuests := []
    activities := []
    upcomingClasses := []
    leaderboard := []
    featuredBadges := []
    weeklyStats := none
    isLoading := false
    isRefreshing := false
    error := none
    filters := emptyFilters
    showCompletedQuests := false
    activityLimit := 5
    pendingXPGain := 0
    pendingCoinsGain := 0 }

/-- The object spread merging the partial filter argument over the current
filters: a key present in the argument wins, an absent key keeps the old
value (dashboardStore.ts, `setFilters`). -/
def mergeFilters (old newFilters : DashboardFilters) : DashboardFilters :=
  { questType :=
      match newFilters.questType with
      | some v => some v
      | none => old.questType
    timeRange :=
      match newFilters.timeRange with
      | some v => some v
      | none => old.timeRange }

/-- Action `setFilters(newFilters)`. -/
def setFilters (newFilters : DashboardFilters) (s : DashboardState) : DashboardState :=
  { s with filters := mergeFilters s.filters newFilters }

/-- The per-quest body of the map inside `updateQuestProgress`: the targeted
quest gets the raw new current, the recomputed percentage
`Math.min((progress / target) * 100, 100)` and, whenever the new current
reaches the target, status completed; every other quest is returned as is. -/
def updateQuest (questId : String) (progress : ℚ) (quest : DashboardQuest) : DashboardQuest :=
  if quest.id = questId then
    { quest with
      progress :=
        { quest.progress with
          current := progress
          percentage :=
            jsMin (jsMulPos (jsDiv progress quest.progress.target) 100) (JSNum.num 100) }
      status :=
        if progress ≥ quest.progress.target then QuestStatus.completed else quest.status }
  else quest

/-- Action `updateQuestProgress(questId, progress)` (dashboardStore.ts lines
257-281): maps `updateQuest` over `activeQuests` and changes nothing else. -/
def updateQuestProgress (questId : String) (progress : ℚ) (s : DashboardState) : DashboardState :=
  { s with activeQuests := s.activeQuests.map (updateQuest questId progress) }

/-- Action `addActivity(activity)` (dashboardStore.ts lines 287-294):
prepend, then keep the first 20 entries. -/
def addActivity (activity : DashboardActivity) (s : DashboardState) : DashboardState :=
  { s with activities := (activity :: s.activities).take 20 }

/-- Action `addPendingXP(amount)`. -/
def addPendingXP (amount : ℚ) (s : DashboardState) : DashboardState :=
  { s with pendingXPGain := s.pendingXPGain + amount }

/-- Action `addPendingCoins(amount)`. -/
def addPendingCoins (amount : ℚ) (s : DashboardState) : DashboardState :=
  { s with pendingCoinsGain := s.pendingCoinsGain + amount }

/-- Action `clearPendingRewards()`. -/
def clearPendingRewards (s : DashboardState) : DashboardState :=
  { s with pendingXPGain := 0, pendingCoinsGain := 0 }

/-- Mock user stats (mockData.ts, `mockUserStats`). -/
def mockUserStats : UserStats :=
  { level := 24
    currentXP := 2450
    requiredXP := 3000
    totalXP := 24450
    coins := 1850
    gems := 45 }

/-- Mock user (mockData.ts, `mockUser`). -/
def mockUser : DashboardUser :=
  { id := "user_001", displayName := "Alex Chen", stats := mockUserStats }

/-- Mock quest quest_001 (mockData.ts). -/
def mockQuest1 : DashboardQuest :=
  { id := "quest_001", title := "Perfect Attendance Week", type := QuestType.weekly
    status := QuestStatus.inProgress
    progress := { current := 4, target := 5, percentage := JSNum.num 80 }
    rewards := { xp := 500, coins := 200 }, isExpiringSoon := false }

/-- Mock quest quest_002 (mockData.ts). -/
def mockQuest2 : DashboardQuest :=
  { id := "quest_002", title := "Knowledge Seeker", type := QuestType.main
    status := QuestStatus.inProgress
    progress := { current := 7, target := 10, percentage := JSNum.num 70 }
    rewards := { xp := 1000, coins := 500 }, isExpiringSoon := false }

/-- Mock quest quest_003 (mockData.ts). -/
def mockQuest3 : DashboardQuest :=
  { id := "quest_003", title := "Social Butterfly", type := QuestType.side
    status := QuestStatus.inProgress
    progress := { current := 2, target := 3, percentage := JSNum.num 66 }
    rewards := { xp := 150, coins := 75 }, isExpiringSoon := false }

/-- Mock quest quest_004 (mockData.ts). -/
def mockQuest4 : DashboardQuest :=
  { id := "quest_004", title := "Early Bird", type := QuestType.daily
    status := QuestStatus.inProgress
    progress := { current := 0, target := 1, percentage := JSNum.num 0 }
    rewards := { xp := 100, coins := 50 }, isExpiringSoon := true }

/-- Mock quest quest_005 (mockData.ts). -/
def mockQuest5 : DashboardQuest :=
  { id := "quest_005", title := "Club Champion", type := QuestType.event
    status := QuestStatus.inProgress
    progress := { current := 1, target := 5, percentage := JSNum.num 20 }
    rewards := { xp := 2000, coins := 1000 }, isExpiringSoon := false }

/-- Mock active quests (mockData.ts, `mockActiveQuests`). -/
def mockActiveQuests : List DashboardQuest :=
  [mockQuest1, mockQuest2, mockQuest3, mockQuest4, mockQuest5]

/-- Mock activity feed (mockData.ts, `mockActivities`). -/
def mockActivities : List DashboardActivity :=
  [ { id := "activity_001", title := "Quest Completed!" }
  , { id := "activity_002", title := "Attendance Recorded" }
  , { id := "activity_003", title := "New Badge Unlocked!" }
  , { id := "activity_004", title := "10-Day Streak!" }
  , { id := "activity_005", title := "Level Up!" } ]

/-- Mock upcoming classes (mockData.ts, `mockUpcomingClasses`). -/
def mockUpcomingClasses : List UpcomingClass :=
  [ { id := "class_001", courseName := "Database Systems" }
  , { id := "class_002", courseName := "Software Engineering" }
  , { id := "class_003", courseName := "Machine Learning" }
  , { id := "class_004", courseName := "Computer Networks" } ]

/-- Mock leaderboard (mockData.ts, `mockLeaderboard`). -/
def mockLeaderboard : List LeaderboardEntry :=
  [ { rank := 1, userId := "user_top1", level := 42, xp := 85420, isCurrentUser := false }
  , { rank := 2, userId := "user_top2", level := 40, xp := 78650, isCurrentUser := false }
  , { rank := 3, userId := "user_top3", level := 39, xp := 75200, isCurrentUser := false }
  , { rank := 127, userId := "user_001", level := 24, xp := 24450, isCurrentUser := true } ]

/-- Mock featured badges (mockData.ts, `mockFeaturedBadges`). -/
def mockFeaturedBadges : List FeaturedBadge :=
  [ { id := "badge_001" }, { id := "badge_002" }, { id := "badge_003" }, { id := "badge_004" } ]

/-- Mock weekly stats (mockData.ts, `mockWeeklyStats`). -/
def mockWeeklyStats : WeeklyStats :=
  { xpEarned := 2450, questsCompleted := 12, attendanceRate := 100, streakDays := 5 }

/-- A value thrown by the simulated load: either a JavaScript Error carrying
a message, or any other thrown value. -/
inductive JSException where
  | jsError (message : String)
  | other
deriving DecidableEq

/-- The message `fetchDashboardData` stores on failure: the Error's message
when an Error was thrown, otherwise the fixed fallback text. -/
def fetchErrorMessage : JSException → String
  | JSException.jsError message => message
  | JSException.other => "Failed to fetch dashboard data"

/-- The message `refreshDashboard` stores on failure. -/
def refreshErrorMessage : JSException → String
  | JSException.jsError message => message
  | JSException.other => "Failed to refresh dashboard"

/-- The synchronous prefix of `fetchDashboardData()` run at call time, before
the awaited 800 ms delay: `setLoading(true); setError(null)`. -/
def fetchStart (s : DashboardState) : DashboardState :=
  { s with isLoading := true, error := none }

/-- The state update `fetchDashboardData()` applies when its awaited delay
resolves: replace every snapshot field with the mock data and clear
`isLoading` (dashboardStore.ts lines 194-203). -/
def fetchResolve (s : DashboardState) : DashboardState :=
  { s with
    user := some mockUser
    activeQuests := mockActiveQuests
    activities := mockActivities
    upcomingClasses := mockUpcomingClasses
    leaderboard := mockLeaderboard
    featuredBadges := mockFeaturedBadges
    weeklyStats := some mockWeeklyStats
    isLoading := false }

/-- Action `fetchDashboardData()` run to completion with no interleaving.
The awaited load's outcome is passed explicitly: `Except.ok` models the
delay resolving (the only behaviour the mock can produce), `Except.error e`
models the try-block throwing `e`, which the catch converts to a message
stored in `error` (dashboardStore.ts lines 182-215).  The function is total:
no outcome escapes to the caller. -/
def fetchDashboardData (outcome : Except JSException Unit) (s : DashboardState) : DashboardState :=
  match outcome with
  | Except.ok _ => fetchResolve (fetchStart s)
  | Except.error e =>
      { fetchStart s with error := some (fetchErrorMessage e), isLoading := false }

/-- The synchronous prefix of `refreshDashboard()`:
`setRefreshing(true); setError(null)`. -/
def refreshStart (s : DashboardState) : DashboardState :=
  { s with isRefreshing := true, error := none }

/-- The state update `refreshDashboard()` applies when its awaited 500 ms
delay resolves: the mock user with `currentXP` increased by the random
amount `xpDelta` (`Math.floor(Math.random() * 50)` in the source, a value in
[0, 50)), the mock quests, activities and classes, and `isRefreshing`
cleared (dashboardStore.ts lines 228-239). -/
def refreshResolve (xpDelta : ℚ) (s : DashboardState) : DashboardState :=
  { s with
    user := some
      { mockUser with stats := { mockUserStats with currentXP := mockUserStats.currentXP + xpDelta } }
    activeQuests := mockActiveQuests
    activities := mockActivities
    upcomingClasses := mockUpcomingClasses
    isRefreshing := false }

/-- Action `refreshDashboard()` run to completion with no interleaving,
with the awaited outcome and the random XP delta passed explicitly
(dashboardStore.ts lines 217-251). -/
def refreshDashboard (xpDelta : ℚ) (outcome : Except JSException Unit) (s : DashboardState) :
    DashboardState :=
  match outcome with
  | Except.ok _ => refreshResolve xpDelta (refreshStart s)
  | Except.error e =>
      { refreshStart s with error := some (refreshErrorMessage e), isRefreshing := false }

/-- The event-loop execution of `fetchDashboardData()` issued first and
`refreshDashboard()` issued immediately after, as the single-threaded
JavaScript runtime schedules it: both synchronous prefixes run in issue
order, then the refresh timer (500 ms) fires before the fetch timer
(800 ms), so the refresh result applies first and the fetch result applies
last.  The store has no in-flight token, so the fetch result is applied
unconditionally. -/
def fetchThenRefreshRace (xpDelta : ℚ) (s : DashboardState) : DashboardState :=
  fetchResolve (refreshResolve xpDelta (refreshStart (fetchStart s)))

/-- The state after one successful `fetchDashboardData()` from the initial
state: a convenient concrete loaded state for witnesses. -/
def loadedState : DashboardState :=
  fetchDashboardData (Except.ok ()) initialState

/-- The percentage the specification prescribes, written from the spec's
words for comparison with the source's computation: clamp(current / target
* 100, 0, 100), and 0 when the target is 0. -/
def percentageSpec (current target : ℚ) : JSNum :=
  if target = 0 then JSNum.num 0
  else JSNum.num (max 0 (min (current / target * 100) 100))

/-- Updating a quest never changes its id. -/
theorem updateQuest_id (questId : String) (p : ℚ) (q : DashboardQuest) :
    (updateQuest questId p q).id = q.id := by
  unfold updateQuest
  split <;> rfl

/-- Updating a quest never changes its target. -/
theorem updateQuest_target (questId : String) (p : ℚ) (q : DashboardQuest) :
    (updateQuest questId p q).progress.target = q.progress.target := by
  unfold updateQuest
  split <;> rfl

/-- A quest whose id is not the targeted one is returned unchanged. -/
theorem updateQuest_of_ne (questId : String) (p : ℚ) (q : DashboardQuest)
    (h : q.id ≠ questId) : updateQuest questId p q = q := by
  unfold updateQuest
  simp [h]

/-- The source's percentage computation agrees with the spec's clamp
whenever the target is positive and the new current is nonnegative. -/
theorem jsPercent_eq_spec (p t : ℚ) (hp : 0 ≤ p) (ht : 0 < t) :
    jsMin (jsMulPos (jsDiv p t) 100) (JSNum.num 100) = percentageSpec p t := by
  have ht0 : t ≠ 0 := ne_of_gt ht
  have h1 : 0 ≤ p / t * 100 := by positivity
  have h2 : (0 : ℚ) ≤ min (p / t * 100) 100 := le_min h1 (by norm_num)
  simp only [jsDiv, ht0, ne_eq, not_false_eq_true, if_true, jsMulPos, jsMin,
    percentageSpec, if_neg ht0]
  rw [max_eq_right h2]
  simp

/-- A locked quest, for exercising the status transition on a quest that the
status state machine says may not jump to completed. -/
def lockedQuest : DashboardQuest :=
  { id := "quest_locked", title := "Hidden Trial", type := QuestType.side
    status := QuestStatus.locked
    progress := { current := 0, target := 5, percentage := JSNum.num 0 }
    rewards := { xp := 100, coins := 50 }, isExpiringSoon := false }

/-- An already completed quest, for exercising updates after completion. -/
def completedQuest : DashboardQuest :=
  { id := "quest_done", title := "Morning Warrior", type := QuestType.daily
    status := QuestStatus.completed
    progress := { current := 3, target := 3, percentage := JSNum.num 100 }
    rewards := { xp := 100, coins := 50 }, isExpiringSoon := false }

/-- C6: when the load inside fetchDashboardData fails, the store records the
user-facing message in `error`, clears `isLoading`, and leaves every
snapshot field (user, activeQuests, activities, upcomingClasses,
leaderboard, featuredBadges, weeklyStats) and every other field with its
pre-call value; the failure is observed via state only, the operation being
a total function that throws nothing to the caller. -/
theorem fetchDashboardData_failure_preserves_snapshot (s : DashboardState) (e : JSException) :
    (fetchDashboardData (Except.error e) s).error = some (fetchErrorMessage e) ∧
    (fetchDashboardData (Except.error e) s).isLoading = false ∧
    (fetchDashboardData (Except.error e) s).user = s.user ∧
    (fetchDashboardData (Except.error e) s).activeQuests = s.activeQuests ∧
    (fetchDashboardData (Except.error e) s).activities = s.activities ∧
    (fetchDashboardData (Except.error e) s).upcomingClasses = s.upcomingClasses ∧
    (fetchDashboardData (Except.error e) s).leaderboard = s.leaderboard ∧
    (fetchDashboardData (Except.error e) s).featuredBadges = s.featuredBadges ∧
    (fetchDashboardData (Except.error e) s).weeklyStats = s.weeklyStats ∧
    (fetchDashboardData (Except.error e) s).isRefreshing = s.isRefreshing ∧
    (fetchDashboardData (Except.error e) s).filters = s.filters ∧
    (fetchDashboardData (Except.error e) s).showCompletedQuests = s.showCompletedQuests ∧
    (fetchDashboardData (Except.error e) s).activityLimit = s.activityLimit ∧
    (fetchDashboardData (Except.error e) s).pendingXPGain = s.pendingXPGain ∧
    (fetchDashboardData (Except.error e) s).pendingCoinsGain = s.pendingCoinsGain :=
  ⟨rfl, rfl, rfl, rfl, rfl, rfl, rfl, rfl, rfl, rfl, rfl, rfl, rfl, rfl, rfl⟩

/-- C7: addActivity prepends the activity and truncates to the first 20
entries: the new log is the 20-element prefix of the prepended list, its
length never exceeds 20, the newest entry is first, and the dropped entries
are exactly the suffix beyond the first 20 (the oldest, the log being
newest-first). -/
theorem addActivity_prepend_bounded (activity : DashboardActivity) (s : DashboardState) :
    (addActivity activity s).activities = (activity :: s.activities).take 20 ∧
    (addActivity activity s).activities.length ≤ 20 ∧
    (addActivity activity s).activities.head? = some activity ∧
    activity :: s.activities =
      (addActivity activity s).activities ++ (activity :: s.activities).drop 20 := by
  refine ⟨rfl, ?_, rfl, (List.take_append_drop 20 (activity :: s.activities)).symm⟩
  simp only [addActivity, List.length_take]
  omega

/-- C8: the reward accumulators are strictly additive and independent:
two addPendingXP calls from a zero XP counter leave exactly the sum, with
the coins counter untouched; addPendingCoins adds on the coins counter and
never touches the XP counter; clearPendingRewards zeroes both in one state
update. -/
theorem pendingRewards_additive (s : DashboardState) (a b : ℚ)
    (h0 : s.pendingXPGain = 0) :
    (addPendingXP b (addPendingXP a s)).pendingXPGain = a + b ∧
    (addPendingXP a s).pendingCoinsGain = s.pendingCoinsGain ∧
    (addPendingXP b (addPendingXP a s)).pendingCoinsGain = s.pendingCoinsGain ∧
    (addPendingCoins a s).pendingXPGain = s.pendingXPGain ∧
    (addPendingCoins b (addPendingCoins a s)).pendingCoinsGain =
      s.pendingCoinsGain + a + b ∧
    (clearPendingRewards s).pendingXPGain = 0 ∧
    (clearPendingRewards s).pendingCoinsGain = 0 := by
  refine ⟨?_, rfl, rfl, rfl, rfl, rfl, rfl⟩
  simp [addPendingXP, h0]

/-- Witness for C8 at the initial state with amounts 3 and 4. -/
theorem pendingRewards_additive_witness :
    (addPendingXP 4 (addPendingXP 3 initialState)).pendingXPGain = 3 + 4 ∧
    (addPendingXP 3 initialState).pendingCoinsGain = initialState.pendingCoinsGain ∧
    (addPendingXP 4 (addPendingXP 3 initialState)).pendingCoinsGain =
      initialState.pendingCoinsGain ∧
    (addPendingCoins 3 initialState).pendingXPGain = initialState.pendingXPGain ∧
    (addPendingCoins 4 (addPendingCoins 3 initialState)).pendingCoinsGain =
      initialState.pendingCoinsGain + 3 + 4 ∧
    (clearPendingRewards initialState).pendingXPGain = 0 ∧
    (clearPendingRewards initialState).pendingCoinsGain = 0 :=
  pendingRewards_additive initialState 3 4 rfl

/-- C9: updateQuestProgress preserves the length and order of activeQuests,
maps each position through the per-quest engine, leaves every quest whose id
differs from the target equal to its old value, and modifies no state field
other than activeQuests. -/
theorem updateQuestProgress_frame (questId : String) (newCurrent : ℚ) (s : DashboardState) :
    (updateQuestProgress questId newCurrent s).activeQuests.length =
      s.activeQuests.length ∧
    (∀ i : ℕ, (updateQuestProgress questId newCurrent s).activeQuests[i]? =
      (s.activeQuests[i]?).map (updateQuest questId newCurrent)) ∧
    (∀ q ∈ s.activeQuests, q.id ≠ questId → updateQuest questId newCurrent q = q) ∧
    (updateQuestProgress questId newCurrent s).user = s.user ∧
    (updateQuestProgress questId newCurrent s).activities = s.activities ∧
    (updateQuestProgress questId newCurrent s).upcomingClasses = s.upcomingClasses ∧
    (updateQuestProgress questId newCurrent s).leaderboard = s.leaderboard ∧
    (updateQuestProgress questId newCurrent s).featuredBadges = s.featuredBadges ∧
    (updateQuestProgress questId newCurrent s).weeklyStats = s.weeklyStats ∧
    (updateQuestProgress questId newCurrent s).isLoading = s.isLoading ∧
    (updateQuestProgress questId newCurrent s).isRefreshing = s.isRefreshing ∧
    (updateQuestProgress questId newCurrent s).error = s.error ∧
    (updateQuestProgress questId newCurrent s).filters = s.filters ∧
    (updateQuestProgress questId newCurrent s).showCompletedQuests =
      s.showCompletedQuests ∧
    (updateQuestProgress questId newCurrent s).activityLimit = s.activityLimit ∧
    (updateQuestProgress questId newCurrent s).pendingXPGain = s.pendingXPGain ∧
    (updateQuestProgress questId newCurrent s).pendingCoinsGain = s.pendingCoinsGain := by
  refine ⟨by simp [updateQuestProgress], fun i => ?_,
    fun q _ h => updateQuest_of_ne questId newCurrent q h,
    rfl, rfl, rfl, rfl, rfl, rfl, rfl, rfl, rfl, rfl, rfl, rfl, rfl, rfl⟩
  simp [updateQuestProgress, List.getElem?_map]

/-- C10: setFilters merges the partial filter object over the current
filters key by key: a key present in the argument takes the argument's
value, an absent key keeps its prior value, merging the empty object leaves
the filters equal to their prior value, and no state field other than
filters changes. -/
theorem setFilters_merges (s : DashboardState) (p : DashboardFilters) :
    (setFilters p s).filters.questType = p.questType.or s.filters.questType ∧
    (setFilters p s).filters.timeRange = p.timeRange.or s.filters.timeRange ∧
    (setFilters emptyFilters s).filters = s.filters ∧
    (setFilters p s).user = s.user ∧
    (setFilters p s).activeQuests = s.activeQuests ∧
    (setFilters p s).activities = s.activities ∧
    (setFilters p s).upcomingClasses = s.upcomingClasses ∧
    (setFilters p s).leaderboard = s.leaderboard ∧
    (setFilters p s).featuredBadges = s.featuredBadges ∧
    (setFilters p s).weeklyStats = s.weeklyStats ∧
    (setFilters p s).isLoading = s.isLoading ∧
    (setFilters p s).isRefreshing = s.isRefreshing ∧
    (setFilters p s).error = s.error ∧
    (setFilters p s).showCompletedQuests = s.showCompletedQuests ∧
    (setFilters p s).activityLimit = s.activityLimit ∧
    (setFilters p s).pendingXPGain = s.pendingXPGain ∧
    (setFilters p s).pendingCoinsGain = s.pendingCoinsGain := by
  refine ⟨?_, ?_, rfl, rfl, rfl, rfl, rfl, rfl, rfl, rfl, rfl, rfl, rfl, rfl, rfl,
    rfl, rfl⟩
  · cases h : p.questType <;> simp [setFilters, mergeFilters, h, Option.or]
  · cases h : p.timeRange <;> simp [setFilters, mergeFilters, h, Option.or]

/-- C1 (amended): the stored percentage agrees with the spec's
clamp(current/target*100, 0, 100) whenever the target is positive and the
new current is nonnegative; the source computes min((current/target)*100,
100) with no lower clamp and no zero-target guard. -/
theorem updateQuestProgress_percentage_clamped (s : DashboardState) (questId : String)
    (newCurrent : ℚ) (q : DashboardQuest)
    (hmem : q ∈ (updateQuestProgress questId newCurrent s).activeQuests)
    (hid : q.id = questId) (hc : 0 ≤ newCurrent) (ht : 0 < q.progress.target) :
    q.progress.percentage = percentageSpec newCurrent q.progress.target := by
  have hmem' : q ∈ s.activeQuests.map (updateQuest questId newCurrent) := hmem
  obtain ⟨q0, hq0, rfl⟩ := List.mem_map.mp hmem'
  have hid0 : q0.id = questId := by
    rw [← updateQuest_id questId newCurrent q0]; exact hid
  have ht0 : 0 < q0.progress.target := by
    rw [← updateQuest_target questId newCurrent q0]; exact ht
  rw [updateQuest_target]
  have hpct : (updateQuest questId newCurrent q0).progress.percentage =
      jsMin (jsMulPos (jsDiv newCurrent q0.progress.target) 100) (JSNum.num 100) := by
    simp [updateQuest, hid0]
  rw [hpct]
  exact jsPercent_eq_spec newCurrent q0.progress.target hc ht0

/-- Witness for C1 on the first mock quest updated to its target. -/
theorem updateQuestProgress_percentage_clamped_witness :
    (updateQuest "quest_001" 5 mockQuest1).progress.percentage =
      percentageSpec 5 (updateQuest "quest_001" 5 mockQuest1).progress.target :=
  updateQuestProgress_percentage_clamped
    { initialState with activeQuests := [mockQuest1] } "quest_001" 5
    (updateQuest "quest_001" 5 mockQuest1)
    (by simp [updateQuestProgress]) (by decide) (by decide) (by decide)

/-- Counterexample to C1 as stated: updating quest_001 (target 5) with
newCurrent -5 stores percentage -100, where the spec's clamp gives 0. -/
theorem updateQuestProgress_percentage_counterexample :
    ((updateQuestProgress "quest_001" (-5) loadedState).activeQuests.head?).map
        (fun q => q.progress.percentage) = some (JSNum.num (-100)) ∧
    ((updateQuestProgress "quest_001" (-5) loadedState).activeQuests.head?).map
        (fun q => q.progress.target) = some 5 ∧
    percentageSpec (-5) 5 = JSNum.num 0 ∧
    JSNum.num (-100) ≠ JSNum.num 0 := by
  have hq : (updateQuestProgress "quest_001" (-5) loadedState).activeQuests.head? =
      some (updateQuest "quest_001" (-5) mockQuest1) := rfl
  have hdiv : jsDiv (-5 : ℚ) 5 = JSNum.num (-1) := by
    unfold jsDiv
    rw [if_pos (by norm_num : (5 : ℚ) ≠ 0)]
    congr 1
    norm_num
  have hmul : jsMulPos (JSNum.num (-1)) 100 = JSNum.num (-100) := by
    show JSNum.num ((-1) * 100) = JSNum.num (-100)
    congr 1
    norm_num
  have hmin : jsMin (JSNum.num (-100)) (JSNum.num 100) = JSNum.num (-100) := by
    show JSNum.num (min (-100 : ℚ) 100) = JSNum.num (-100)
    rw [min_eq_left (by norm_num : (-100 : ℚ) ≤ 100)]
  have hpct : (updateQuest "quest_001" (-5) mockQuest1).progress.percentage =
      JSNum.num (-100) := by
    show jsMin (jsMulPos (jsDiv (-5 : ℚ) mockQuest1.progress.target) 100)
        (JSNum.num 100) = JSNum.num (-100)
    rw [show mockQuest1.progress.target = 5 from rfl, hdiv, hmul, hmin]
  refine ⟨?_, ?_, ?_, ?_⟩
  · rw [hq]
    simp only [Option.map_some']
    rw [hpct]
  · rfl
  · unfold percentageSpec
    rw [if_neg (by norm_num : ¬ (5 : ℚ) = 0)]
    congr 1
    have hv : (-5 : ℚ) / 5 * 100 = -100 := by norm_num
    rw [hv, min_eq_left (by norm_num : (-100 : ℚ) ≤ 100)]
    exact max_eq_left (by norm_num)
  · intro h
    have h0 := JSNum.num.inj h
    norm_num at h0

/-- C2 (amended): updateQuestProgress stores newCurrent verbatim as the
targeted quest's current, with no clamping; hence 0 <= current <= target
holds after the call exactly when 0 <= newCurrent <= target held of the
argument. -/
theorem updateQuestProgress_current_verbatim (s : DashboardState) (questId : String)
    (newCurrent : ℚ) (q : DashboardQuest)
    (hmem : q ∈ (updateQuestProgress questId newCurrent s).activeQuests)
    (hid : q.id = questId) :
    q.progress.current = newCurrent ∧
    ((0 ≤ q.progress.current ∧ q.progress.current ≤ q.progress.target) ↔
      (0 ≤ newCurrent ∧ newCurrent ≤ q.progress.target)) := by
  have hmem' : q ∈ s.activeQuests.map (updateQuest questId newCurrent) := hmem
  obtain ⟨q0, hq0, rfl⟩ := List.mem_map.mp hmem'
  have hid0 : q0.id = questId := by
    rw [← updateQuest_id questId newCurrent q0]; exact hid
  have hcur : (updateQuest questId newCurrent q0).progress.current = newCurrent := by
    simp [updateQuest, hid0]
  exact ⟨hcur, by rw [hcur]⟩

/-- Witness for C2 on the first mock quest updated to its target. -/
theorem updateQuestProgress_current_verbatim_witness :
    (updateQuest "quest_001" 5 mockQuest1).progress.current = 5 ∧
    ((0 ≤ (updateQuest "quest_001" 5 mockQuest1).progress.current ∧
        (updateQuest "quest_001" 5 mockQuest1).progress.current ≤
          (updateQuest "quest_001" 5 mockQuest1).progress.target) ↔
      (0 ≤ (5 : ℚ) ∧ (5 : ℚ) ≤ (updateQuest "quest_001" 5 mockQuest1).progress.target)) :=
  updateQuestProgress_current_verbatim
    { initialState with activeQuests := [mockQuest1] } "quest_001" 5
    (updateQuest "quest_001" 5 mockQuest1)
    (by simp [updateQuestProgress]) (by decide)

/-- Counterexample to C2 as stated: updating quest_001 with newCurrent -5
stores current -5, below 0, so no clamping into [0, target] happens. -/
theorem updateQuestProgress_current_counterexample :
    ((updateQuestProgress "quest_001" (-5) loadedState).activeQuests.head?).map
        (fun q => q.progress.current) = some (-5) ∧
    ¬ (0 : ℚ) ≤ (-5 : ℚ) := by
  decide

/-- C4 (amended): the targeted quest's status becomes completed exactly when
newCurrent reaches the target or the quest was already completed - the prior
status is not consulted, so even a locked quest is moved to completed. -/
theorem updateQuestProgress_status_rule (s : DashboardState) (questId : String)
    (newCurrent : ℚ) (q : DashboardQuest)
    (hmem : q ∈ s.activeQuests) (hid : q.id = questId) :
    updateQuest questId newCurrent q ∈
      (updateQuestProgress questId newCurrent s).activeQuests ∧
    ((updateQuest questId newCurrent q).status = QuestStatus.completed ↔
      (q.progress.target ≤ newCurrent ∨ q.status = QuestStatus.completed)) := by
  constructor
  · exact List.mem_map_of_mem (updateQuest questId newCurrent) hmem
  · unfold updateQuest
    rw [if_pos hid]
    by_cases h : q.progress.target ≤ newCurrent
    · simp [ge_iff_le, h]
    · simp [ge_iff_le, h]

/-- Witness for C4 on the first mock quest updated to its target. -/
theorem updateQuestProgress_status_rule_witness :
    updateQuest "quest_001" 5 mockQuest1 ∈
      (updateQuestProgress "quest_001" 5 loadedState).activeQuests ∧
    ((updateQuest "quest_001" 5 mockQuest1).status = QuestStatus.completed ↔
      (mockQuest1.progress.target ≤ 5 ∨ mockQuest1.status = QuestStatus.completed)) :=
  updateQuestProgress_status_rule loadedState "quest_001" 5 mockQuest1
    (by decide) (by decide)

/-- Counterexample to C4 as stated: a locked quest whose newCurrent reaches
the target is moved to completed, though the claim excludes prior statuses
other than in_progress and available. -/
theorem updateQuestProgress_status_counterexample :
    lockedQuest.status = QuestStatus.locked ∧
    ((updateQuestProgress "quest_locked" 5
        { initialState with activeQuests := [lockedQuest] }).activeQuests.map
      (fun q => q.status)) = [QuestStatus.completed] := by
  decide

/-- C5: a quest that is completed or claimed keeps a status in that set
under any updateQuestProgress call, and a call with newCurrent below the
target leaves the status exactly unchanged - completion is one-way in this
engine. -/
theorem updateQuestProgress_completion_monotone (s : DashboardState) (questId : String)
    (newCurrent : ℚ) (q : DashboardQuest)
    (hmem : q ∈ s.activeQuests) (hid : q.id = questId)
    (hdone : q.status = QuestStatus.completed ∨ q.status = QuestStatus.claimed) :
    updateQuest questId newCurrent q ∈
      (updateQuestProgress questId newCurrent s).activeQuests ∧
    ((updateQuest questId newCurrent q).status = QuestStatus.completed ∨
      (updateQuest questId newCurrent q).status = QuestStatus.claimed) ∧
    (newCurrent < q.progress.target →
      (updateQuest questId newCurrent q).status = q.status) := by
  refine ⟨List.mem_map_of_mem _ hmem, ?_, ?_⟩
  · unfold updateQuest
    rw [if_pos hid]
    by_cases h : q.progress.target ≤ newCurrent
    · simp [ge_iff_le, h]
    · simpa [ge_iff_le, h] using hdone
  · intro hlt
    unfold updateQuest
    rw [if_pos hid]
    simp [ge_iff_le, not_le.mpr hlt]

/-- Witness for C5 on a completed quest updated with a value below its
target. -/
theorem updateQuestProgress_completion_monotone_witness :
    updateQuest "quest_done" 1 completedQuest ∈
      (updateQuestProgress "quest_done" 1
        { initialState with activeQuests := [completedQuest] }).activeQuests ∧
    ((updateQuest "quest_done" 1 completedQuest).status = QuestStatus.completed ∨
      (updateQuest "quest_done" 1 completedQuest).status = QuestStatus.claimed) ∧
    ((1 : ℚ) < completedQuest.progress.target →
      (updateQuest "quest_done" 1 completedQuest).status = completedQuest.status) :=
  updateQuestProgress_completion_monotone
    { initialState with activeQuests := [completedQuest] } "quest_done" 1 completedQuest
    (by decide) (by decide) (Or.inl (by decide))

/-- C3: the race the claim rules out happens.  With fetchDashboardData
issued first (800 ms mock delay) and refreshDashboard issued right after
(500 ms mock delay, random XP delta 7), the event loop runs the refresh
result first and the fetch result last; the store has no in-flight token,
so the stale fetch result overwrites the user the refresh had written. -/
theorem fetchThenRefreshRace_overwrites :
    (fetchThenRefreshRace 7 initialState).user = some mockUser ∧
    (refreshResolve 7 (refreshStart (fetchStart initialState))).user =
      some { mockUser with
              stats := { mockUserStats with currentXP := 2457 } } ∧
    (fetchThenRefreshRace 7 initialState).user ≠
      (refreshResolve 7 (refreshStart (fetchStart initialState))).user := by
  have hxp : mockUserStats.currentXP + 7 = 2457 := by
    norm_num [mockUserStats]
  have hru : (refreshResolve 7 (refreshStart (fetchStart initialState))).user =
      some { mockUser with
              stats := { mockUserStats with currentXP := 2457 } } := by
    have h0 : (refreshResolve 7 (refreshStart (fetchStart initialState))).user =
        some { mockUser with
                stats := { mockUserStats with
                            currentXP := mockUserStats.currentXP + 7 } } := rfl
    rw [h0, hxp]
  refine ⟨rfl, hru, ?_⟩
  rw [hru]
  intro h
  have hu := Option.some.inj h
  have hs := congrArg (fun u => u.stats.currentXP) hu
  norm_num [mockUser, mockUserStats] at hs
